import Mathlib

/-!
Verification of the training orchestration logic of `mnist.py` (convgp).

The file shallowly embeds the parts of `src/mnist.py` that the specification's
claims are about: the restart-safe learning-rate derivation in the `__main__`
relaunch loop, the history-file loading convention, the kernel dispatch of
`setup_model`, the task list of `setup_logger`, the timeout ceiling, the
benchmark evaluation metrics, and the minibatch-sampler reseeding.
Python floats are modelled as real numbers (probabilities as rationals where
the code stays order/arithmetic only), pandas history frames as lists of
iteration indices, and external collaborators (`opt_tools`, numpy's
`RandomState`, pandas `read_pickle`) are modelled from the specification where
their code is not part of the source file.
-/

open scoped ENNReal

namespace ConvgpMnist

/-! ### Restart-safe learning-rate derivation

`__main__` relaunch loop of `src/mnist.py`:
```
i = pd.read_pickle(exp.hist_path).i.max() if os.path.exists(exp.hist_path) else 1.0
run_settings['learning_rate'] = (1 + i // args.learning_rate_schedule_const) ** -args.learning_rate_pow * lr_base
```
-/

/-- The learning rate the `__main__` loop derives from history iteration `i`:
`(1 + i // const) ** -pow * lr_base`, with `//` the (non-negative) floor
division of Python. -/
noncomputable def lrDerived (lrBase : ℝ) (schedConst : ℕ) (lrPow : ℝ) (i : ℕ) : ℝ :=
  ((1 + i / schedConst : ℕ) : ℝ) ^ (-lrPow) * lrBase

/-- The iteration index the loop reads back:
`pd.read_pickle(exp.hist_path).i.max()` when a history file exists (its `i`
column modelled as the list of recorded iterations), and the literal `1.0`
when no file exists at `exp.hist_path`. -/
def iFromHist : Option (List ℕ) → ℕ
  | none => 1
  | some l => l.foldr max 0

/-- Learning rate at launch: `lrDerived` applied to the reloaded history. -/
noncomputable def lrAtLaunch (lrBase : ℝ) (schedConst : ℕ) (lrPow : ℝ)
    (hist : Option (List ℕ)) : ℝ :=
  lrDerived lrBase schedConst lrPow (iFromHist hist)

/-- The schedule as the spec writes it: `lr_base * (1 + floor(i / const)) ^ (-pow)`,
with a genuine real floor of the real quotient. -/
noncomputable def lrSpecFormula (lrBase : ℝ) (schedConst : ℕ) (lrPow : ℝ) (i : ℕ) : ℝ :=
  lrBase * (1 + (⌊(i : ℝ) / (schedConst : ℝ)⌋₊ : ℝ)) ^ (-lrPow)

/-- C1: the derived rate equals the spec formula for every non-negative `i`,
and in the concrete scenario it is `0.001 * (1+2) ^ (-0.5)`. -/
theorem lr_matches_spec_formula (lrBase lrPow : ℝ) (schedConst i : ℕ)
    (hc : 0 < schedConst) :
    lrDerived lrBase schedConst lrPow i = lrSpecFormula lrBase schedConst lrPow i ∧
    lrDerived 0.001 3600 0.5 7200 = 0.001 * ((1 : ℝ) + 2) ^ (-(0.5 : ℝ)) := by
  constructor
  · unfold lrDerived lrSpecFormula
    rw [Nat.floor_div_nat, Nat.floor_natCast]
    push_cast
    ring
  · unfold lrDerived
    norm_num [mul_comm]

/-- Witness for C1 at the scenario input. -/
theorem lr_matches_spec_formula_witness :
    (0 < 3600) ∧
    lrDerived 0.001 3600 0.5 7200 = lrSpecFormula 0.001 3600 0.5 7200 := by
  exact ⟨by norm_num, (lr_matches_spec_formula 0.001 0.5 3600 7200 (by norm_num)).1⟩

/-- C3 counterexample: with no history file the loop uses `i = 1`, not `i = 0`,
and at `lr_base = 1, const = 1, pow = 1` the first launch runs at `1/2`, not at
`lr_base`. -/
theorem first_launch_uses_one_counterexample :
    iFromHist none ≠ 0 ∧ lrAtLaunch 1 1 1 none ≠ 1 := by
  constructor
  · decide
  · unfold lrAtLaunch lrDerived iFromHist
    norm_num [Real.rpow_neg_one]

/-- C3 amended: with no history file the loop uses `i = 1`; since `1 / const = 0`
for every `const ≥ 2` (in particular the default `3600`), the first launch still
runs at exactly `lr_base`. -/
theorem first_launch_lr_base (lrBase lrPow : ℝ) (schedConst : ℕ)
    (hc : 2 ≤ schedConst) :
    iFromHist none = 1 ∧ lrAtLaunch lrBase schedConst lrPow none = lrBase := by
  refine ⟨rfl, ?_⟩
  show lrDerived lrBase schedConst lrPow 1 = lrBase
  unfold lrDerived
  rw [Nat.div_eq_of_lt (by omega)]
  norm_num [Real.one_rpow]

/-- Witness for C3's amended theorem at the default `const = 3600`. -/
theorem first_launch_lr_base_witness :
    (2 ≤ 3600) ∧ lrAtLaunch 0.001 3600 0.5 none = 0.001 :=
  ⟨by norm_num, (first_launch_lr_base 0.001 0.5 3600 (by norm_num)).2⟩

/-- C4: with `lr_base > 0`, `const > 0` and `pow ≥ 0` fixed, the derived rate is
non-increasing in the history iteration: `i1 < i2 → lr(i2) ≤ lr(i1)`. -/
theorem lr_monotone_nonincreasing (lrBase lrPow : ℝ) (schedConst i1 i2 : ℕ)
    (h12 : i1 < i2) (hb : 0 < lrBase) (hc : 0 < schedConst) (hp : 0 ≤ lrPow) :
    lrDerived lrBase schedConst lrPow i2 ≤ lrDerived lrBase schedConst lrPow i1 := by
  unfold lrDerived
  have hdiv : i1 / schedConst ≤ i2 / schedConst :=
    Nat.div_le_div_right h12.le
  set a : ℝ := ((1 + i1 / schedConst : ℕ) : ℝ) with ha
  set b : ℝ := ((1 + i2 / schedConst : ℕ) : ℝ) with hb'
  have ha0 : (0 : ℝ) < a := by
    rw [ha]
    have h1 : 0 < 1 + i1 / schedConst :=
      Nat.lt_of_lt_of_le Nat.zero_lt_one (Nat.le_add_right 1 _)
    exact_mod_cast h1
  have hb0 : (0 : ℝ) < b := by
    rw [hb']
    have h1 : 0 < 1 + i2 / schedConst :=
      Nat.lt_of_lt_of_le Nat.zero_lt_one (Nat.le_add_right 1 _)
    exact_mod_cast h1
  have hab : a ≤ b := by
    rw [ha, hb']; exact_mod_cast Nat.add_le_add_left hdiv 1
  have key : b ^ (-lrPow) ≤ a ^ (-lrPow) := by
    rw [Real.rpow_neg ha0.le, Real.rpow_neg hb0.le]
    exact inv_anti₀ (Real.rpow_pos_of_pos ha0 lrPow)
      (Real.rpow_le_rpow ha0.le hab hp)
  exact mul_le_mul_of_nonneg_right key hb.le

/-- Witness for C4 at the scenario's parameters with `i1 = 0 < i2 = 7200`. -/
theorem lr_monotone_nonincreasing_witness :
    ((0 : ℕ) < 7200 ∧ (0 : ℝ) < 0.001 ∧ (0 : ℕ) < 3600 ∧ (0 : ℝ) ≤ 0.5) ∧
    lrDerived 0.001 3600 0.5 7200 ≤ lrDerived 0.001 3600 0.5 0 :=
  ⟨⟨by norm_num, by norm_num, by norm_num, by norm_num⟩,
    lr_monotone_nonincreasing 0.001 0.5 3600 0 7200 (by norm_num) (by norm_num)
      (by norm_num) (by norm_num)⟩

/-! ### Minibatch sampler reseeding

`__main__` relaunch loop of `src/mnist.py`:
```
rndstate = np.random.randint(0, 1e9)
exp.m.X.index_manager.rng = np.random.RandomState(rndstate)
exp.m.Y.index_manager.rng = np.random.RandomState(rndstate)
```
A `RandomState` is modelled by the seed it was constructed from; its index
stream is an arbitrary deterministic function `g` of that seed. -/

/-- Seeds of the two minibatch index managers (`exp.m.X.index_manager.rng` and
`exp.m.Y.index_manager.rng`). -/
structure SamplerState where
  xSeed : ℕ
  ySeed : ℕ

/-- Lines 121-122 of `src/mnist.py`: both index managers are assigned a
`RandomState` built from the same freshly drawn `rndstate`. -/
def reseedSamplers (rndstate : ℕ) (s : SamplerState) : SamplerState :=
  { s with xSeed := rndstate, ySeed := rndstate }

/-- Modelled from the spec: the dataset collaborator's "minibatch sampler with
an externally reseedable random source" draws its index sequence
deterministically from the seed; `g seed` is that stream. -/
def sampleIdxs (g : ℕ → ℕ → ℕ) (seed batch : ℕ) : List ℕ :=
  (List.range batch).map (g seed)

/-- The feature minibatch: rows of `X` at the indices drawn by the X sampler. -/
def minibatchX {α : Type} (g : ℕ → ℕ → ℕ) (s : SamplerState) (batch : ℕ)
    (X : List α) (dx : α) : List α :=
  (sampleIdxs g s.xSeed batch).map (fun i => X.getD i dx)

/-- The label minibatch: rows of `Y` at the indices drawn by the Y sampler. -/
def minibatchY {β : Type} (g : ℕ → ℕ → ℕ) (s : SamplerState) (batch : ℕ)
    (Y : List β) (dy : β) : List β :=
  (sampleIdxs g s.ySeed batch).map (fun i => Y.getD i dy)

/-! ### Orchestration loop

`exp.run(maxiter=args.learning_rate_schedule_const)` runs the optimizer for a
bounded number of steps at the learning rate placed in `run_settings` before
the call.  The loop internals live in `opt_tools` and are modelled from the
spec (§4.4). -/

/-- Loop state: the global iteration counter and the learning rate configured
at launch. -/
structure OrchState where
  iter : ℕ
  lr : ℝ

/-- Modelled from the spec: in `RUNNING` the loop "repeatedly requests one
optimizer step from the external collaborator (passing the current learning
rate), increments the global iteration counter"; the learning-rate field is
not touched by the step transition.  Returns the successor state and the rate
passed to the optimizer for this step. -/
def stepOnce (s : OrchState) : OrchState × ℝ :=
  ({ s with iter := s.iter + 1 }, s.lr)

/-- Modelled from the spec: run `n` optimizer steps, collecting the learning
rate passed to each step. -/
def runLoop : ℕ → OrchState → OrchState × List ℝ
  | 0, s => (s, [])
  | Nat.succ n, s =>
    let p := stepOnce s
    let q := runLoop n p.1
    (q.1, p.2 :: q.2)

/-- One iteration of the `while True` relaunch loop of `src/mnist.py` lines
113-123: reload the history, derive the learning rate once from its maximum
iteration, reseed both samplers with the same fresh `rndstate`, then run
`maxiter = args.learning_rate_schedule_const` steps at that rate. -/
noncomputable def launchOnce (lrBase : ℝ) (schedConst : ℕ) (lrPow : ℝ)
    (hist : Option (List ℕ)) (rndstate : ℕ) (sam : SamplerState) :
    (OrchState × List ℝ) × SamplerState :=
  let i := iFromHist hist
  let lr := lrDerived lrBase schedConst lrPow i
  let sam' := reseedSamplers rndstate sam
  (runLoop schedConst ⟨i, lr⟩, sam')

theorem runLoop_trace (n : ℕ) (s : OrchState) :
    (runLoop n s).2 = List.replicate n s.lr := by
  induction n generalizing s with
  | zero => rfl
  | succ n ih => simp [runLoop, stepOnce, ih, List.replicate_succ]

/-- C2: within one launch every optimizer step is passed the same rate — the
one derived from the history as reloaded at launch — and a different (in
particular a reduced) rate at the next launch can only come from a changed
maximum iteration in the persisted log. -/
theorem lr_fixed_for_entire_run (lrBase lrPow : ℝ) (schedConst : ℕ)
    (hist hist' : Option (List ℕ)) (rndstate : ℕ) (sam : SamplerState) :
    (launchOnce lrBase schedConst lrPow hist rndstate sam).1.2 =
      List.replicate schedConst (lrAtLaunch lrBase schedConst lrPow hist) ∧
    (lrAtLaunch lrBase schedConst lrPow hist' < lrAtLaunch lrBase schedConst lrPow hist →
      iFromHist hist' ≠ iFromHist hist) := by
  constructor
  · exact runLoop_trace schedConst ⟨iFromHist hist, lrAtLaunch lrBase schedConst lrPow hist⟩
  · intro hlt heq
    have : lrAtLaunch lrBase schedConst lrPow hist' = lrAtLaunch lrBase schedConst lrPow hist := by
      unfold lrAtLaunch
      rw [heq]
    rw [this] at hlt
    exact lt_irrefl _ hlt

/-- Witness for C2: a concrete launch from an empty history, against a history
whose maximum iteration has advanced to 7200 (where the rate is reduced). -/
theorem lr_fixed_for_entire_run_witness :
    (launchOnce 0.001 3600 0.5 none 42 ⟨0, 0⟩).1.2 =
      List.replicate 3600 (lrAtLaunch 0.001 3600 0.5 none) ∧
    iFromHist (some [7200]) ≠ iFromHist none := by
  have h1 : lrAtLaunch 0.001 3600 0.5 none = 0.001 := by
    show lrDerived 0.001 3600 0.5 1 = 0.001
    unfold lrDerived
    norm_num [Real.one_rpow]
  have hi : iFromHist (some [7200]) = 7200 := by decide
  have h2 : lrAtLaunch 0.001 3600 0.5 (some [7200]) < 0.001 := by
    unfold lrAtLaunch
    rw [hi]
    unfold lrDerived
    have h3 : ((1 + 7200 / 3600 : ℕ) : ℝ) = 3 := by norm_num
    rw [h3]
    have h4 : (3 : ℝ) ^ (-(0.5 : ℝ)) < 1 :=
      Real.rpow_lt_one_of_one_lt_of_neg (by norm_num) (by norm_num)
    have h5 : (0 : ℝ) < 0.001 := by norm_num
    exact mul_lt_of_lt_one_left h5 h4
  have hlt : lrAtLaunch 0.001 3600 0.5 (some [7200]) < lrAtLaunch 0.001 3600 0.5 none := by
    rw [h1]; exact h2
  exact ⟨(lr_fixed_for_entire_run 0.001 0.5 3600 none (some [7200]) 42 ⟨0, 0⟩).1,
    (lr_fixed_for_entire_run 0.001 0.5 3600 none (some [7200]) 42 ⟨0, 0⟩).2 hlt⟩

/-- C10: after the per-launch reseeding, both samplers hold the same seed, so
they draw identical index sequences and the sampled feature and label
minibatches pair each feature row with its own label; the relaunch-loop body
performs exactly this reseeding. -/
theorem samplers_reseeded_identically {α β : Type} (g : ℕ → ℕ → ℕ)
    (rndstate batch : ℕ) (s : SamplerState) (lrBase lrPow : ℝ) (schedConst : ℕ)
    (hist : Option (List ℕ)) (X : List α) (Y : List β) (dx : α) (dy : β) :
    sampleIdxs g (reseedSamplers rndstate s).xSeed batch =
      sampleIdxs g (reseedSamplers rndstate s).ySeed batch ∧
    (minibatchX g (reseedSamplers rndstate s) batch X dx).zip
        (minibatchY g (reseedSamplers rndstate s) batch Y dy) =
      (sampleIdxs g rndstate batch).map (fun i => (X.getD i dx, Y.getD i dy)) ∧
    (launchOnce lrBase schedConst lrPow hist rndstate s).2 =
      reseedSamplers rndstate s := by
  refine ⟨rfl, ?_, rfl⟩
  unfold minibatchX minibatchY reseedSamplers
  exact List.zip_map' _ _ _

/-! ### History loading

`setup_logger` (line 59) and the relaunch loop (line 115) both read the
history with the same guard:
```
h = pd.read_pickle(self.hist_path) if os.path.exists(self.hist_path) else None
```
No exception handling wraps `pd.read_pickle`. -/

/-- Failure modes of reading a present history file. -/
inductive PersistError where
  | deserialization
  | ioError
deriving DecidableEq

/-- Contents found at the history path when a file is present. -/
inductive HistContent where
  | corrupt (e : PersistError)
  | valid (iters : List ℕ)
deriving DecidableEq

/-- Modelled from the spec: pandas `read_pickle` deserializes a present
history file; "any I/O or deserialization error beyond not-found" is raised
to the caller. -/
def read_pickle : HistContent → Except PersistError (List ℕ)
  | .corrupt e => .error e
  | .valid l => .ok l

/-- What the filesystem holds at `hist_path`. -/
inductive HistFile where
  | absent
  | present (c : HistContent)
deriving DecidableEq

/-- The load guard of `src/mnist.py`: `None` when `os.path.exists` is false,
otherwise the result of `pd.read_pickle` with no surrounding `try`/`except`. -/
def loadHist : HistFile → Except PersistError (Option (List ℕ))
  | .absent => .ok none
  | .present c => (read_pickle c).map some

/-- C5: loading fails soft (yields `none`, no error) when no file exists, and
any error raised by deserializing a present file propagates — it is never
turned into a successful (empty or other) load. -/
theorem load_fails_soft_errors_propagate :
    loadHist HistFile.absent = Except.ok none ∧
    ∀ (c : HistContent) (e : PersistError), read_pickle c = Except.error e →
      loadHist (HistFile.present c) = Except.error e ∧
      ∀ r : Option (List ℕ), loadHist (HistFile.present c) ≠ Except.ok r := by
  refine ⟨rfl, ?_⟩
  intro c e h
  have hm : loadHist (HistFile.present c) = (read_pickle c).map some := rfl
  constructor
  · rw [hm, h]
    rfl
  · intro r hok
    rw [hm, h] at hok
    exact Except.noConfusion hok

/-- Witness for C5 at a concrete corrupt file. -/
theorem load_fails_soft_errors_propagate_witness :
    read_pickle (HistContent.corrupt PersistError.deserialization) =
      Except.error PersistError.deserialization ∧
    loadHist (HistFile.present (HistContent.corrupt PersistError.deserialization)) =
      Except.error PersistError.deserialization :=
  ⟨rfl, (load_fails_soft_errors_propagate.2
    (HistContent.corrupt PersistError.deserialization)
    PersistError.deserialization rfl).1⟩

/-! ### Kernel dispatch in `setup_model` -/

/-- Kernel expressions `setup_model` can build (GPflow kernels and the
convolutional kernels of `svconvgp.convkernels`). -/
inductive KernExpr where
  | RBF (inputDim : ℕ)
  | Polynomial (inputDim : ℕ) (degree : ℚ)
  | White (inputDim : ℕ) (variance : ℚ)
  | ConvRBF (imageShape patchShape : List ℕ)
  | WeightedConv (base : KernExpr) (imageShape patchShape : List ℕ)
  | add (a b : KernExpr)
deriving DecidableEq

/-- How the inducing inputs `Z` are chosen: a random subset of training rows
(`X[np.random.permutation(len(X))[:M]]`) or `init_inducing` with the
configured `Zinit` method. -/
inductive ZSource where
  | randomTrainingSubset
  | inducingInit (method : String)
deriving DecidableEq

/-- The SVGP model configuration `setup_model` assembles. -/
structure SVGPModelCfg where
  kern : KernExpr
  zSource : ZSource
  numInducing : ℕ
  numLatent : ℕ
  minibatchSize : ℕ
deriving DecidableEq

/-- Error raised by the final `else` branch of `setup_model`
(`raise NotImplementedError`). -/
inductive SetupError where
  | notImplemented
deriving DecidableEq

/-- `MnistExperiment.setup_model` (src/mnist.py lines 27-54): dispatch on the
`kernel` string of `run_settings`; any name other than the five handled ones
hits the final `else: raise NotImplementedError` before any model is built. -/
def setup_model (kernel : String) (M minibatchSize : ℕ) (zinit : String) :
    Except SetupError SVGPModelCfg :=
  if kernel = "rbf" then
    .ok ⟨.RBF (28 * 28), .randomTrainingSubset, M, 10, minibatchSize⟩
  else if kernel = "poly" then
    .ok ⟨.Polynomial (28 * 28) 9, .randomTrainingSubset, M, 10, minibatchSize⟩
  else if kernel = "rbfpoly" then
    .ok ⟨.add (.add (.Polynomial (28 * 28) 9) (.RBF (28 * 28))) (.White (28 * 28) (1 / 10)),
      .randomTrainingSubset, M, 10, minibatchSize⟩
  else if kernel = "conv" then
    .ok ⟨.add (.ConvRBF [28, 28] [5, 5]) (.White 1 (1 / 1000)),
      .inducingInit zinit, M, 10, minibatchSize⟩
  else if kernel = "wconv" then
    .ok ⟨.add (.WeightedConv (.RBF 25) [28, 28] [5, 5]) (.White 1 (1 / 1000)),
      .inducingInit zinit, M, 10, minibatchSize⟩
  else
    .error .notImplemented

/-- C6: every kernel name outside the five supported ones makes `setup_model`
raise (`NotImplementedError`, the spec's `ConfigurationError`) and no model
configuration is constructed. -/
theorem unknown_kernel_raises (kernel : String) (M mb : ℕ) (zinit : String)
    (h : kernel ∉ ["rbf", "poly", "rbfpoly", "conv", "wconv"]) :
    setup_model kernel M mb zinit = Except.error SetupError.notImplemented ∧
    ∀ m : SVGPModelCfg, setup_model kernel M mb zinit ≠ Except.ok m := by
  simp only [List.mem_cons, List.not_mem_nil, or_false] at h
  push_neg at h
  obtain ⟨h1, h2, h3, h4, h5⟩ := h
  constructor
  · simp [setup_model, h1, h2, h3, h4, h5]
  · intro m hok
    simp [setup_model, h1, h2, h3, h4, h5] at hok

/-- Witness for C6 at the unsupported kernel name `"matern52"`. -/
theorem unknown_kernel_raises_witness :
    ("matern52" ∉ ["rbf", "poly", "rbfpoly", "conv", "wconv"]) ∧
    setup_model "matern52" 100 100 "patches-unique" =
      Except.error SetupError.notImplemented :=
  ⟨by decide, (unknown_kernel_raises "matern52" 100 100 "patches-unique" (by decide)).1⟩

/-! ### Task list and dispatch order -/

/-- The tasks `setup_logger` registers, in source order (src/mnist.py lines
62-75). -/
inductive TaskKind where
  | displayOptimisation
  | gpflowLogOptimisation
  | classificationTrackerLml
  | classificationTracker
  | storeOptimisationHistory
  | timeoutTask
deriving DecidableEq, BEq

/-- The `tasks` list built by `MnistExperiment.setup_logger`, in the order it
appears in the source. -/
def mnistTasks : List TaskKind :=
  [.displayOptimisation, .gpflowLogOptimisation, .classificationTrackerLml,
   .classificationTracker, .storeOptimisationHistory, .timeoutTask]

/-- Modelled from the spec: the Orchestration Loop "dispatches due Tasks in a
fixed, deterministic order" — the due tasks fire in the order of the
registered task list. -/
def dispatchDue (due : TaskKind → Bool) : List TaskKind :=
  mnistTasks.filter due

/-- C7: dispatched tasks always appear in the fixed order of the registered
list, and in that list the metric-logging task precedes the
history-persistence task, which precedes the timeout task. -/
theorem tasks_dispatch_order :
    (∀ due : TaskKind → Bool, (dispatchDue due).Sublist mnistTasks) ∧
    mnistTasks.indexOf TaskKind.gpflowLogOptimisation <
      mnistTasks.indexOf TaskKind.storeOptimisationHistory ∧
    mnistTasks.indexOf TaskKind.storeOptimisationHistory <
      mnistTasks.indexOf TaskKind.timeoutTask :=
  ⟨fun _ => List.filter_sublist mnistTasks, by decide, by decide⟩

/-! ### Timeout ceiling -/

/-- The `dest` names of every option `argparse` accepts in `__main__`
(src/mnist.py lines 79-96). -/
def mainArgDests : List String :=
  ["fixed", "name", "learning_rate", "learning_rate_pow",
   "learning_rate_schedule_const", "profile", "no_opt", "M", "minibatch_size",
   "benchmarks", "optimiser", "fix_w", "kernel", "Zinit", "lml"]

/-- The keys left in `run_settings` after
`del run_settings['profile']; del run_settings['no_opt']; del run_settings['name']`. -/
def runSettingsKeys : List String :=
  mainArgDests.filter (fun k => !(k == "profile" || k == "no_opt" || k == "name"))

/-- `opt_tools.tasks.Timeout(self.run_settings.get("timeout", np.inf))`
(src/mnist.py line 73): the ceiling is the `timeout` entry of `run_settings`
when present, `np.inf` (modelled as `⊤ : ℝ≥0∞`) otherwise. -/
noncomputable def timeoutCeiling (rs : List (String × ℝ≥0∞)) : ℝ≥0∞ :=
  match rs.lookup "timeout" with
  | some t => t
  | none => ⊤

/-- Modelled from the spec: the Timeout task "compares elapsed wall time
against a configured ceiling (default: unbounded) and emits a
TerminationSignal when exceeded". -/
def timeoutFires (ceiling elapsed : ℝ≥0∞) : Prop :=
  ceiling < elapsed

/-- C8 counterexample: the CLI entry surface of `__main__` accepts no timeout
option — `"timeout"` is neither an `argparse` destination nor a key of the
`run_settings` built from the parsed arguments. -/
theorem no_cli_timeout_counterexample :
    "timeout" ∉ mainArgDests ∧ "timeout" ∉ runSettingsKeys := by
  constructor
  · decide
  · decide

/-- C8 amended: the CLI does not accept a timeout value; the Timeout task's
ceiling comes from the `run_settings` mapping, defaults to infinity when the
`timeout` key is absent (as it always is for CLI-built settings), and with
that default the Timeout task never fires. -/
theorem timeout_defaults_unbounded (rs : List (String × ℝ≥0∞)) (elapsed : ℝ≥0∞)
    (h : rs.lookup "timeout" = none) :
    "timeout" ∉ mainArgDests ∧ timeoutCeiling rs = ⊤ ∧ ¬ timeoutFires ⊤ elapsed := by
  refine ⟨by decide, ?_, not_top_lt⟩
  unfold timeoutCeiling
  rw [h]

/-- Witness for C8's amended theorem on the empty settings mapping. -/
theorem timeout_defaults_unbounded_witness :
    (([] : List (String × ℝ≥0∞)).lookup "timeout" = none) ∧
    ("timeout" ∉ mainArgDests ∧ timeoutCeiling [] = ⊤ ∧ ¬ timeoutFires ⊤ 5) :=
  ⟨rfl, timeout_defaults_unbounded [] 5 rfl⟩

/-! ### Benchmark evaluation

`__main__` benchmarks path (src/mnist.py lines 125-132):
```
p = exp.m.predict_y(exp.Xt)[0]
lpp = np.mean(np.log(p[np.arange(len(exp.Xt)), exp.Yt.flatten()]))
acc = np.mean(p.argmax(1) == exp.Yt[:, 0])
```
The probability matrix `p` is a list of per-point rows of per-class
probabilities (rationals standing for floats); `y` is the true-label column
`Yt[:, 0]`. -/

/-- `np.argmax` along a row: the first index attaining the row maximum. -/
def argmaxIdx (l : List ℚ) : ℕ :=
  l.findIdx (fun x => decide (∀ v ∈ l, v ≤ x))

/-- `acc = np.mean(p.argmax(1) == exp.Yt[:, 0])`: the mean of the elementwise
comparison vector (`True` counting as `1.0`). -/
noncomputable def benchmarkAccuracy (p : List (List ℚ)) (y : List ℕ) : ℝ :=
  (((p.zip y).map (fun q => if argmaxIdx q.1 == q.2 then (1 : ℝ) else 0)).sum) /
    p.length

/-- `lpp = np.mean(np.log(p[np.arange(len(exp.Xt)), exp.Yt.flatten()]))`:
fancy indexing builds the vector `p[i, y[i]]` for `i < len(Xt)`, then the mean
of its logs is taken. -/
noncomputable def benchmarkLpp (p : List (List ℚ)) (y : List ℕ) : ℝ :=
  (((List.range p.length).map
      (fun i => Real.log (((p.getD i []).getD (y.getD i 0) 0 : ℚ) : ℝ))).sum) /
    p.length

/-- The claim's accuracy: the fraction of held-out points whose argmax
predicted class equals the true label. -/
noncomputable def accuracySpec (p : List (List ℚ)) (y : List ℕ) : ℝ :=
  (((p.zip y).filter (fun q => argmaxIdx q.1 == q.2)).length : ℝ) / p.length

/-- The claim's log predictive probability: the mean over held-out points of
the log of the probability assigned to the true label. -/
noncomputable def lppSpec (p : List (List ℚ)) (y : List ℕ) : ℝ :=
  (((p.zip y).map (fun q => Real.log ((q.1.getD q.2 0 : ℚ) : ℝ))).sum) / p.length

theorem sum_ite_eq_filter_length {α : Type} (f : α → Bool) :
    ∀ l : List α,
      (l.map (fun a => if f a then (1 : ℝ) else 0)).sum = ((l.filter f).length : ℝ)
  | [] => by simp
  | a :: l => by
    by_cases h : f a <;>
      simp [h, List.filter_cons, sum_ite_eq_filter_length f l, add_comm]

theorem range_map_log_eq_zip_map (p : List (List ℚ)) :
    ∀ y : List ℕ, p.length = y.length →
      (List.range p.length).map
          (fun i => Real.log (((p.getD i []).getD (y.getD i 0) 0 : ℚ) : ℝ)) =
        (p.zip y).map (fun q => Real.log ((q.1.getD q.2 0 : ℚ) : ℝ)) := by
  induction p with
  | nil => intro y _; simp
  | cons a p ih =>
    intro y h
    cases y with
    | nil => simp at h
    | cons b y =>
      have h' : p.length = y.length := by simpa using h
      simp only [List.length_cons, List.range_succ_eq_map, List.map_cons,
        List.map_map, List.zip_cons_cons, Function.comp_def, List.getD_cons_zero,
        List.getD_cons_succ]
      rw [ih y h']

/-- C9: in the benchmarks path, the computed accuracy equals the fraction of
held-out points whose argmax predicted class equals the true label, and the
computed log predictive probability equals the mean over held-out points of
the log of the probability assigned to the true label. -/
theorem benchmarks_metrics_correct (p : List (List ℚ)) (y : List ℕ)
    (h : p.length = y.length) :
    benchmarkAccuracy p y = accuracySpec p y ∧ benchmarkLpp p y = lppSpec p y := by
  constructor
  · unfold benchmarkAccuracy accuracySpec
    rw [sum_ite_eq_filter_length]
  · unfold benchmarkLpp lppSpec
    rw [range_map_log_eq_zip_map p y h]

/-- Witness for C9 on a two-point held-out set. -/
theorem benchmarks_metrics_correct_witness :
    (([[(1 : ℚ) / 10, 9 / 10], [8 / 10, 2 / 10]] : List (List ℚ)).length =
      ([1, 0] : List ℕ).length) ∧
    benchmarkAccuracy [[(1 : ℚ) / 10, 9 / 10], [8 / 10, 2 / 10]] [1, 0] =
      accuracySpec [[(1 : ℚ) / 10, 9 / 10], [8 / 10, 2 / 10]] [1, 0] ∧
    benchmarkLpp [[(1 : ℚ) / 10, 9 / 10], [8 / 10, 2 / 10]] [1, 0] =
      lppSpec [[(1 : ℚ) / 10, 9 / 10], [8 / 10, 2 / 10]] [1, 0] :=
  ⟨rfl, (benchmarks_metrics_correct
      [[(1 : ℚ) / 10, 9 / 10], [8 / 10, 2 / 10]] [1, 0] rfl).1,
    (benchmarks_metrics_correct
      [[(1 : ℚ) / 10, 9 / 10], [8 / 10, 2 / 10]] [1, 0] rfl).2⟩

end ConvgpMnist
